import Mathlib

/-!
Shallow embedding of the CUDASymmetricMemory core
(torch/csrc/distributed/c10d/CUDASymmetricMemory.cu): the block allocator,
the rendezvous protocol, the symmetric-memory accessors, the store
all-gather key discipline and the signal-pad addressing used by the device
kernels.  Pointers, driver handles and device addresses are modelled as
numbers; driver and OS effects are modelled as explicit event traces.
-/

namespace SymmetricMemoryModel

/-- Fixed signal pad size in bytes, from the source:
constexpr size_t signal_pad_size = 2048. -/
def signal_pad_size : Nat := 2048

/-- Number of channels as check_channel computes it in the source:
signal_pad_size / sizeof(uint32_t) * world_size. -/
def num_channels (world_size : Nat) : Nat :=
  signal_pad_size / 4 * world_size

/-- check_channel from the source: the first TORCH_CHECK requires
channel >= 0, the second requires (size_t)channel < num_channels.
Returns true exactly when both checks pass. -/
def check_channel (channel : Int) (world_size : Nat) : Bool :=
  decide (0 ≤ channel) && decide (channel.toNat < num_channels world_size)

/-- Modelled from the spec: the channel count the signal-pad layout admits,
signal_pad_bytes / 4 / world_size (the pad holds signal_pad_bytes / 4
four-byte slots and each channel occupies world_size of them). -/
def spec_channel_count (world_size : Nat) : Nat :=
  signal_pad_size / 4 / world_size

/-- Modelled from the spec (signal-pad layout, bit-exact contract): slot
(dst, channel) of a pad lives at byte offset
channel * world_size * 4 + dst * 4 from the pad base. -/
def spec_slot_byte_offset (dst channel world_size : Int) : Int :=
  channel * world_size * 4 + dst * 4

/-- Byte address written by put_signal_kernel in the source: thread 0
releases signal_pads[dst_rank] + world_size * channel + rank, uint32
pointer arithmetic, hence 4 bytes per element.  The device pointer table
signal_pads maps a rank index to the base address of the pad of that rank;
all kernel parameters are C ints, so the model uses Int throughout. -/
def put_signal_kernel_addr (signal_pads : Int → Int)
    (dst_rank channel rank world_size : Int) : Int :=
  signal_pads dst_rank + 4 * (world_size * channel + rank)

/-- Byte address read by wait_signal_kernel in the source: thread 0
acquires signal_pads[rank] + world_size * channel + src_rank. -/
def wait_signal_kernel_addr (signal_pads : Int → Int)
    (src_rank channel rank world_size : Int) : Int :=
  signal_pads rank + 4 * (world_size * channel + src_rank)

/-- SymmetricMemory object constructed at the end of rendezvous, with the
per-rank handle, buffer-pointer and signal-pad-pointer arrays and the
sizes and identity fields of the constructor of CUDASymmetricMemory. -/
structure CUDASymmetricMemory where
  handles : List Nat
  block_size : Nat
  buffers : List Nat
  signal_pads : List Nat
  buffer_size : Nat
  local_device_idx : Nat
  rank : Nat
  world_size : Nat
deriving DecidableEq, Repr

/-- Error raised by the TORCH_CHECK in get_buffer when the requested size
exceeds the allocated size. -/
inductive GetBufferError where
  | sizeExceeded (req_size buffer_size : Nat)
deriving DecidableEq, Repr

/-- Non-owning view returned by get_buffer (at::for_blob over the mapped
pointer of the requested rank with the given sizes, dtype element size
and storage offset). -/
structure TensorView where
  base : Nat
  sizes : List Nat
  element_size : Nat
  storage_offset : Int
deriving DecidableEq, Repr

/-- Element count of a shape as get_buffer computes it:
std::accumulate(sizes.begin(), sizes.end(), 1, std::multiplies) -- a left
fold starting from 1.  Shape entries are modelled as naturals and the
product is exact (overflow of the C int accumulator is undefined
behaviour and is not modelled). -/
def numel (sizes : List Nat) : Nat :=
  sizes.foldl (fun a b => a * b) 1

/-- Requested byte size as get_buffer computes it:
(numel + storage_offset) * element_size, where the sum is a signed 64-bit
value that the multiplication by the unsigned element_size converts to
uint64, so the product is taken modulo 2 ^ 64 (this wraparound is defined
behaviour in the source). -/
def req_size_of (sizes : List Nat) (element_size : Nat) (storage_offset : Int) : Nat :=
  ((((numel sizes : Int) + storage_offset) * (element_size : Int)) % (2 ^ 64 : Int)).toNat

/-- get_buffer from the source: checks req_size <= buffer_size (size_t
comparison) and on success builds a view over the mapped pointer of the
requested rank (buffers_[rank]); otherwise raises the size-exceeded
error.  Out-of-range rank indexing of the buffers array is undefined
behaviour in the source; the model reads 0 there. -/
def get_buffer (m : CUDASymmetricMemory) (rank : Nat) (sizes : List Nat)
    (element_size : Nat) (storage_offset : Int) :
    Except GetBufferError TensorView :=
  let req_size := req_size_of sizes element_size storage_offset
  if req_size ≤ m.buffer_size then
    Except.ok { base := m.buffers.getD rank 0, sizes := sizes,
                element_size := element_size, storage_offset := storage_offset }
  else
    Except.error (GetBufferError.sizeExceeded req_size m.buffer_size)

/-- Sample fully-rendezvoused object for concrete evaluations: world size
2, payload 4096 bytes, signal pad at offset 4096 of each 6144-byte block. -/
def demo_mem : CUDASymmetricMemory where
  handles := [100, 200]
  block_size := 6144
  buffers := [4096, 65536]
  signal_pads := [8192, 69632]
  buffer_size := 4096
  local_device_idx := 0
  rank := 0
  world_size := 2

/-- Success test for a get_buffer result. -/
def got_buffer : Except GetBufferError TensorView → Bool
  | Except.ok _ => true
  | Except.error _ => false

/-- ceil_div from ATen/ceil_div.h: (x + y - 1) / y. -/
def ceil_div (x y : Nat) : Nat := (x + y - 1) / y

/-- round_up from ATen/ceil_div.h: ceil_div(x, y) * y. -/
def round_up (x y : Nat) : Nat := ceil_div x y * y

/-- Block record kept by the allocator: driver handle, owning device,
total block size, requested payload size, signal pad offset, group name
and the SymmetricMemory reference set once rendezvous completes. -/
structure Block where
  handle : Nat
  device_idx : Nat
  block_size : Nat
  buffer_size : Nat
  signal_pad_offset : Nat
  group_name : String
  symm_mem : Option CUDASymmetricMemory
deriving DecidableEq, Repr

/-- Allocator state: the ptr_to_block map of CUDASymmetricMemoryAllocator,
as an association list keyed by the mapped pointer. -/
structure AllocatorState where
  ptr_to_block : List (Nat × Block)
deriving DecidableEq, Repr

/-- find_block from the source: lookup of a pointer in ptr_to_block,
returning none when absent, never failing. -/
def find_block (st : AllocatorState) (ptr : Nat) : Option Block :=
  (st.ptr_to_block.find? (fun pb => pb.1 == ptr)).map (fun pb => pb.2)

/-- alloc from the source: signal_pad_offset = round_up(size, 16),
block_size = round_up(signal_pad_offset + signal_pad_size, granularity),
then a Block with buffer_size = size and no SymmetricMemory yet is
emplaced into ptr_to_block under the mapped pointer.  The granularity,
the created handle and the reserved pointer are driver outputs and enter
as parameters; emplace inserts only when the key is absent. -/
def alloc (st : AllocatorState) (size device_idx : Nat) (group_name : String)
    (granularity handle ptr : Nat) : AllocatorState :=
  let signal_pad_offset := round_up size 16
  let block_size := round_up (signal_pad_offset + signal_pad_size) granularity
  let block : Block :=
    { handle := handle, device_idx := device_idx, block_size := block_size,
      buffer_size := size, signal_pad_offset := signal_pad_offset,
      group_name := group_name, symm_mem := none }
  if (find_block st ptr).isSome then st
  else { ptr_to_block := (ptr, block) :: st.ptr_to_block }

/-- Driver calls that free can make. -/
inductive DriverEvent where
  | unmap (ptr size : Nat)
  | release (handle : Nat)
deriving DecidableEq, Repr

/-- Erasure of a pointer from ptr_to_block. -/
def erase_ptr (st : AllocatorState) (ptr : Nat) : AllocatorState :=
  { ptr_to_block := st.ptr_to_block.filter (fun pb => pb.1 != ptr) }

/-- free from the source: no-op when the pointer is unknown or the
process is finalizing; otherwise, when rendezvous never transferred
ownership (symm_mem is still null), cuMemUnmap and cuMemRelease are
called on the block before the registry entry is erased; when a
SymmetricMemory owns the allocation, only the registry entry is erased.
Returns the new state and the driver calls made. -/
def free (st : AllocatorState) (is_finalizing : Bool) (ptr : Nat) :
    AllocatorState × List DriverEvent :=
  match find_block st ptr with
  | none => (st, [])
  | some block =>
    if is_finalizing then (st, [])
    else
      let events := if block.symm_mem = none then
          [DriverEvent.unmap ptr block.block_size, DriverEvent.release block.handle]
        else []
      (erase_ptr st ptr, events)

/-- get_alloc_size from the source: fails when the pointer is unknown and
otherwise returns the buffer_size field of the block, which alloc set to
the originally requested payload size. -/
def get_alloc_size (st : AllocatorState) (ptr : Nat) : Except String Nat :=
  match find_block st ptr with
  | none => Except.error
      "CUDASymmetricMemoryAllocator::get_alloc_size: input must be allocated via CUDASymmetricMemoryAllocator::alloc"
  | some block => Except.ok block.buffer_size

/-- Setting the SymmetricMemory reference of the block registered under a
pointer, as the final step of rendezvous does. -/
def set_symm_mem (st : AllocatorState) (ptr : Nat) (s : CUDASymmetricMemory) :
    AllocatorState :=
  { ptr_to_block := st.ptr_to_block.map (fun pb =>
      if pb.1 = ptr then (pb.1, { pb.2 with symm_mem := some s }) else pb) }

/-- Registry-mutating operations of the allocator: alloc, free and the
ownership transfer performed by rendezvous. -/
inductive AllocatorOp where
  | op_alloc (size device_idx : Nat) (group_name : String)
      (granularity handle ptr : Nat)
  | op_free (is_finalizing : Bool) (ptr : Nat)
  | op_set_symm_mem (ptr : Nat) (s : CUDASymmetricMemory)

/-- One operation applied to the allocator state. -/
def apply_op (st : AllocatorState) : AllocatorOp → AllocatorState
  | AllocatorOp.op_alloc size dev grp g h p => alloc st size dev grp g h p
  | AllocatorOp.op_free fin p => (free st fin p).1
  | AllocatorOp.op_set_symm_mem p s => set_symm_mem st p s

/-- A sequence of operations run from the empty registry. -/
def run_ops (ops : List AllocatorOp) : AllocatorState :=
  ops.foldl apply_op { ptr_to_block := [] }

/-- Side condition on an operation: the allocation granularity reported by
the driver is positive. -/
def granularity_ok : AllocatorOp → Prop
  | AllocatorOp.op_alloc _ _ _ g _ _ => 1 ≤ g
  | _ => True

/-- Size invariants of a block, as the claim C5 states them. -/
def block_size_invariant (b : Block) : Prop :=
  b.signal_pad_offset = round_up b.buffer_size 16 ∧
  b.buffer_size + signal_pad_size ≤ b.block_size

/-- Sample block as alloc builds it for a 4096-byte payload on device 0
with granularity 2048 (pointer 4096, handle 100). -/
def demo_block : Block where
  handle := 100
  device_idx := 0
  block_size := 6144
  buffer_size := 4096
  signal_pad_offset := 4096
  group_name := "group0"
  symm_mem := none

/-- Sample registry holding demo_block under pointer 4096. -/
def demo_st : AllocatorState where
  ptr_to_block := [(4096, demo_block)]

/-- Per-rank metadata exchanged during rendezvous, from the source
struct RendezvousRequest. -/
structure RendezvousRequest where
  device_idx : Nat
  block_fd : Nat
  pid : Nat
  block_size : Nat
  buffer_size : Nat
  signal_pad_offset : Nat
deriving DecidableEq, Repr, Inhabited

/-- validate_rendezvous_requests from the source: the request count must
equal world_size; the unordered set of device indices must not have fewer
than world_size members (rejecting overlapping devices across ranks); and
every request from rank 1 onward must report the same block_size,
buffer_size and signal_pad_offset as request 0. -/
def validate_rendezvous_requests (reqs : List RendezvousRequest)
    (world_size : Nat) : Bool :=
  (reqs.length == world_size) &&
  (decide (world_size ≤ (reqs.map (fun q => q.device_idx)).dedup.length)) &&
  ((List.range' 1 (world_size - 1)).all fun r =>
    ((reqs.getD r default).block_size == (reqs.getD 0 default).block_size) &&
    ((reqs.getD r default).buffer_size == (reqs.getD 0 default).buffer_size) &&
    ((reqs.getD r default).signal_pad_offset
      == (reqs.getD 0 default).signal_pad_offset))

/-- Environment of one rendezvous call: the group membership resolved
from the group name (rank, world_size), the process id, the fd produced
by exporting the local handle, the peer requests readable from the store,
and the results of the driver import and mapping calls for each remote
rank. -/
structure RendezvousEnv where
  rank : Nat
  world_size : Nat
  pid : Nat
  exported_fd : Nat
  peer_req : Nat → RendezvousRequest
  imported_fd : Nat → Nat
  imported_handle : Nat → Nat
  mapped_ptr : Nat → Nat

/-- The local RendezvousRequest built from the block, as in the source. -/
def local_rendezvous_req (env : RendezvousEnv) (block : Block) :
    RendezvousRequest where
  device_idx := block.device_idx
  block_fd := env.exported_fd
  pid := env.pid
  block_size := block.block_size
  buffer_size := block.buffer_size
  signal_pad_offset := block.signal_pad_offset

/-- Result of the store all-gather: slot rank holds the local request and
every other slot holds the request read from the store. -/
def gather_reqs (env : RendezvousEnv) (local_req : RendezvousRequest) :
    List RendezvousRequest :=
  (List.range env.world_size).map fun r =>
    if r = env.rank then local_req else env.peer_req r

/-- The validation rendezvous performs on the gathered requests. -/
def rendezvous_validation (env : RendezvousEnv) (block : Block) : Bool :=
  validate_rendezvous_requests
    (gather_reqs env (local_rendezvous_req env block)) env.world_size

/-- Driver, OS and store effects of one rendezvous call, in program
order. -/
inductive RendezvousEvent where
  | export_handle (handle : Nat)
  | all_gather_round
  | import_fd (pid fd : Nat)
  | import_handle (fd : Nat)
  | map_remote (handle size device_idx : Nat)
  | barrier_round
deriving DecidableEq, Repr

/-- Per-rank buffer pointers after rendezvous: the local slot reuses the
already-mapped pointer, every remote slot is the freshly mapped one. -/
def rendezvous_buffers (env : RendezvousEnv) (ptr : Nat) : List Nat :=
  (List.range env.world_size).map fun r =>
    if r = env.rank then ptr else env.mapped_ptr r

/-- The SymmetricMemory object rendezvous constructs: per-rank handles,
buffers and signal pads (each pad at signal_pad_offset inside the
corresponding buffer), with the block sizes and the group identity. -/
def rendezvous_symm_mem (env : RendezvousEnv) (block : Block) (ptr : Nat) :
    CUDASymmetricMemory where
  handles := (List.range env.world_size).map fun r =>
    if r = env.rank then block.handle else env.imported_handle r
  block_size := block.block_size
  buffers := rendezvous_buffers env ptr
  signal_pads := (rendezvous_buffers env ptr).map
    (fun b => b + block.signal_pad_offset)
  buffer_size := block.buffer_size
  local_device_idx := block.device_idx
  rank := env.rank
  world_size := env.world_size

/-- Import and mapping events of the per-rank loop: for every remote rank
in order, the fd of that rank is imported from its process, converted to
a driver handle, and mapped for the local device. -/
def rendezvous_import_events (env : RendezvousEnv) (block : Block) :
    List RendezvousEvent :=
  ((List.range env.world_size).map fun r =>
    if r = env.rank then []
    else
      let reqs := gather_reqs env (local_rendezvous_req env block)
      [RendezvousEvent.import_fd (reqs.getD r default).pid
         (reqs.getD r default).block_fd,
       RendezvousEvent.import_handle (env.imported_fd r),
       RendezvousEvent.map_remote (env.imported_handle r) block.block_size
         block.device_idx]).flatten

/-- Error text for an unknown pointer passed to rendezvous. -/
def rendezvous_unknown_ptr_msg : String :=
  "CUDASymmetricMemoryAllocator::rendezvous: input must be allocated via CUDASymmetricMemoryAllocator::alloc"

/-- Error text for failed validation of the gathered requests. -/
def rendezvous_validation_msg : String :=
  "CUDASymmetricMemoryAllocator::rendezvous: request validation failed"

/-- rendezvous from the source: fail on an unknown pointer; return the
cached SymmetricMemory when the block already has one; otherwise export
the handle, all-gather the requests, validate them (failing before
any import when validation rejects), import and map every remote block,
run the store barrier, construct the SymmetricMemory, store it on the
block and return it.  The second component is the effect trace. -/
def rendezvous (env : RendezvousEnv) (st : AllocatorState) (ptr : Nat) :
    Except String (CUDASymmetricMemory × AllocatorState)
      × List RendezvousEvent :=
  match find_block st ptr with
  | none => (Except.error rendezvous_unknown_ptr_msg, [])
  | some block =>
    match block.symm_mem with
    | some s => (Except.ok (s, st), [])
    | none =>
      if rendezvous_validation env block then
        (Except.ok (rendezvous_symm_mem env block ptr,
           set_symm_mem st ptr (rendezvous_symm_mem env block ptr)),
         RendezvousEvent.export_handle block.handle
           :: RendezvousEvent.all_gather_round
           :: rendezvous_import_events env block
           ++ [RendezvousEvent.barrier_round])
      else
        (Except.error rendezvous_validation_msg,
         [RendezvousEvent.export_handle block.handle,
          RendezvousEvent.all_gather_round])

/-- Sample peer request matching demo_block from device 1. -/
def demo_peer_req : RendezvousRequest where
  device_idx := 1
  block_fd := 9
  pid := 42
  block_size := 6144
  buffer_size := 4096
  signal_pad_offset := 4096

/-- Sample rendezvous environment: rank 0 of world size 2, with the peer
request matching demo_block. -/
def demo_env : RendezvousEnv where
  rank := 0
  world_size := 2
  pid := 41
  exported_fd := 7
  peer_req := fun _ => demo_peer_req
  imported_fd := fun _ => 11
  imported_handle := fun _ => 200
  mapped_ptr := fun _ => 65536

/-- Environment whose peer reports a mismatched buffer size. -/
def demo_bad_env : RendezvousEnv :=
  { demo_env with peer_req := fun _ => { demo_peer_req with buffer_size := 8192 } }

/-- The SymmetricMemory the sample rendezvous constructs. -/
def demo_symm : CUDASymmetricMemory :=
  rendezvous_symm_mem demo_env demo_block 4096

/-- The sample registry after the sample rendezvous. -/
def demo_st2 : AllocatorState :=
  set_symm_mem demo_st 4096 demo_symm

/-- Store key as the source composes it: the sequence-counter value and
the rank it belongs to. -/
structure StoreKey where
  seq : Nat
  rank : Nat
deriving DecidableEq, Repr

/-- Rendered key text as the output string stream builds it:
store_comm_prefix << "/" << seq << "/" << rank. -/
def StoreKey.render (k : StoreKey) : String :=
  "CUDASymmetricMemory/" ++ toString k.seq ++ "/" ++ toString k.rank

/-- Store operations store_all_gather performs. -/
inductive StoreOp where
  | set_key (k : StoreKey)
  | wait_key (k : StoreKey)
  | get_key (k : StoreKey)
deriving DecidableEq, Repr

/-- The key an operation addresses. -/
def StoreOp.key : StoreOp → StoreKey
  | StoreOp.set_key k => k
  | StoreOp.wait_key k => k
  | StoreOp.get_key k => k

/-- Key of a set operation, none otherwise. -/
def StoreOp.set_key? : StoreOp → Option StoreKey
  | StoreOp.set_key k => some k
  | _ => none

/-- Key of a wait operation, none otherwise. -/
def StoreOp.wait_key? : StoreOp → Option StoreKey
  | StoreOp.wait_key k => some k
  | _ => none

/-- Key of a get operation, none otherwise. -/
def StoreOp.get_key? : StoreOp → Option StoreKey
  | StoreOp.get_key k => some k
  | _ => none

/-- store_all_gather from the source, as its interaction with the store:
the peer keys are all built from the current value of the process-wide
sequence counter, the counter is incremented once, the calling rank sets
its own key, and then every rank below world_size is visited in
increasing order, the caller skipping itself and waiting on then getting
the key of every other rank.  Returns the operation trace and the new
counter value. -/
def store_all_gather_trace (rank world_size seq : Nat) :
    List StoreOp × Nat :=
  (StoreOp.set_key { seq := seq, rank := rank } ::
    ((List.range world_size).map fun r =>
      if r = rank then []
      else [StoreOp.wait_key { seq := seq, rank := r },
            StoreOp.get_key { seq := seq, rank := r }]).flatten,
   seq + 1)

/-- store_barrier from the source: a single store_all_gather round. -/
def store_barrier_trace (rank world_size seq : Nat) : List StoreOp × Nat :=
  store_all_gather_trace rank world_size seq

/-- Device kernels launched by the host synchronization entry points. -/
inductive KernelKind where
  | barrier_kernel
  | put_signal_kernel
  | wait_signal_kernel
deriving DecidableEq, Repr

/-- A queued kernel launch with the arguments the host passes: the peer
rank argument (dst_rank for put_signal_kernel, src_rank for
wait_signal_kernel, none for barrier_kernel), the channel, and the rank
and world size of the calling object.  The peer value becomes the index
into the device signal-pad pointer table, as in put_signal_kernel_addr
and wait_signal_kernel_addr. -/
structure KernelLaunch where
  kind : KernelKind
  peer : Option Int
  channel : Int
  rank : Nat
  world_size : Nat
deriving DecidableEq, Repr

/-- Error text of the check_channel TORCH_CHECK failures. -/
def channel_range_msg : String :=
  "channel for barrier(), put_signal() and wait_signal() out of range"

/-- Host put_signal from the source: check_channel on the channel
argument only, then queue put_signal_kernel with dst_rank passed through
unmodified. -/
def put_signal (m : CUDASymmetricMemory) (dst_rank channel : Int) :
    Except String KernelLaunch :=
  if check_channel channel m.world_size then
    Except.ok { kind := KernelKind.put_signal_kernel, peer := some dst_rank,
                channel := channel, rank := m.rank,
                world_size := m.world_size }
  else Except.error channel_range_msg

/-- Host wait_signal from the source: check_channel on the channel
argument only, then queue wait_signal_kernel with src_rank passed through
unmodified. -/
def wait_signal (m : CUDASymmetricMemory) (src_rank channel : Int) :
    Except String KernelLaunch :=
  if check_channel channel m.world_size then
    Except.ok { kind := KernelKind.wait_signal_kernel, peer := some src_rank,
                channel := channel, rank := m.rank,
                world_size := m.world_size }
  else Except.error channel_range_msg

/-- Host barrier from the source: check_channel on the channel argument,
then queue barrier_kernel (which takes no peer rank argument). -/
def barrier (m : CUDASymmetricMemory) (channel : Int) :
    Except String KernelLaunch :=
  if check_channel channel m.world_size then
    Except.ok { kind := KernelKind.barrier_kernel, peer := none,
                channel := channel, rank := m.rank,
                world_size := m.world_size }
  else Except.error channel_range_msg

end SymmetricMemoryModel

namespace SymmetricMemoryModel

/-- C1: the claim states that check_channel accepts exactly the channels
0 <= c < signal_pad_bytes / 4 / world_size for every world size.  The code
instead multiplies by world_size: at world size 2 it accepts channel 256
(its bound is 2048 / 4 * 2 = 1024) although the layout admits only
2048 / 4 / 2 = 256 channels, so channel 256 must be rejected.  This
evaluates the code at that failing input. -/
theorem check_channel_accepts_out_of_range_channel :
    check_channel 256 2 = true ∧
    spec_channel_count 2 = 256 ∧
    ¬ (256 < spec_channel_count 2) ∧
    num_channels 2 = 1024 := by
  refine ⟨by decide, by decide, by decide, by decide⟩

/-- C8: the slot addressed by put_signal_kernel is the slot indexed by the
calling rank in the pad of dst_rank, and the slot addressed by
wait_signal_kernel is the slot indexed by src_rank in the pad of the
calling rank, both at the byte offset channel * world_size * 4 + dst * 4
prescribed by the layout contract. -/
theorem signal_kernels_address_spec_slots (signal_pads : Int → Int)
    (rank dst_rank src_rank channel world_size : Int) :
    put_signal_kernel_addr signal_pads dst_rank channel rank world_size
      = signal_pads dst_rank + spec_slot_byte_offset rank channel world_size ∧
    wait_signal_kernel_addr signal_pads src_rank channel rank world_size
      = signal_pads rank + spec_slot_byte_offset src_rank channel world_size := by
  constructor
  · unfold put_signal_kernel_addr spec_slot_byte_offset
    ring
  · unfold wait_signal_kernel_addr spec_slot_byte_offset
    ring

/-- C2 counterexample: the claim states that get_buffer succeeds if and
only if (numel(shape) + offset) * elementSize(dtype) <= buffer_size, for
every storage offset.  At shape [1], element size 4 and storage offset -2
the claimed bound holds ((1 - 2) * 4 = -4 <= 4096), yet the code fails:
the signed sum -1 is converted to uint64 by the multiplication, so the
computed request size is 2 ^ 64 - 4, which exceeds the buffer size. -/
theorem get_buffer_claim_counterexample :
    ((numel [1] : Int) + (-2)) * 4 ≤ (demo_mem.buffer_size : Int) ∧
    got_buffer (get_buffer demo_mem 0 [1] 4 (-2)) = false := by
  refine ⟨by decide, by decide⟩

/-- C2 amended: whenever the intermediate value
(numel(shape) + offset) * elementSize(dtype) stays inside [0, 2 ^ 64) --
in particular for every non-negative storage offset without uint64
overflow -- get_buffer succeeds and returns a view over the mapped
pointer of the requested rank exactly when that value is at most
buffer_size, and otherwise fails with the size-exceeded error.  With
buffer_size = 4096 and a 4-byte dtype, shape [1024] at offset 0 succeeds
and shape [1025] at offset 0 fails. -/
theorem get_buffer_size_check (m : CUDASymmetricMemory) (rank : Nat)
    (sizes : List Nat) (element_size : Nat) (storage_offset : Int)
    (hrank : rank < m.buffers.length)
    (hlo : 0 ≤ (numel sizes : Int) + storage_offset)
    (hhi : ((numel sizes : Int) + storage_offset) * element_size < 2 ^ 64) :
    (((numel sizes : Int) + storage_offset) * element_size ≤ (m.buffer_size : Int) →
      get_buffer m rank sizes element_size storage_offset
        = Except.ok { base := m.buffers[rank], sizes := sizes,
                      element_size := element_size,
                      storage_offset := storage_offset }) ∧
    ((m.buffer_size : Int) < ((numel sizes : Int) + storage_offset) * element_size →
      get_buffer m rank sizes element_size storage_offset
        = Except.error (GetBufferError.sizeExceeded
            (req_size_of sizes element_size storage_offset) m.buffer_size)) ∧
    got_buffer (get_buffer demo_mem 0 [1024] 4 0) = true ∧
    got_buffer (get_buffer demo_mem 0 [1025] 4 0) = false := by
  have h0 : 0 ≤ ((numel sizes : Int) + storage_offset) * (element_size : Int) :=
    mul_nonneg hlo (by positivity)
  have hreq : (req_size_of sizes element_size storage_offset : Int)
      = ((numel sizes : Int) + storage_offset) * element_size := by
    unfold req_size_of
    rw [Int.emod_eq_of_lt h0 hhi, Int.toNat_of_nonneg h0]
  refine ⟨?_, ?_, by decide, by decide⟩
  · intro hle
    have hle2 : req_size_of sizes element_size storage_offset ≤ m.buffer_size := by
      omega
    unfold get_buffer
    simp only [hle2, if_pos]
    rw [List.getD_eq_getElem m.buffers 0 hrank]
  · intro hgt
    have hgt2 : ¬ (req_size_of sizes element_size storage_offset ≤ m.buffer_size) := by
      omega
    unfold get_buffer
    simp [hgt2]

/-- Rounding up never decreases a natural number when the step is
positive. -/
theorem le_round_up (x y : Nat) (hy : 1 ≤ y) : x ≤ round_up x y := by
  unfold round_up ceil_div
  rw [Nat.mul_comm]
  have h1 := Nat.div_add_mod (x + y - 1) y
  have h2 : (x + y - 1) % y < y := Nat.mod_lt _ hy
  omega

/-- free either leaves the state untouched or erases exactly the given
pointer. -/
theorem free_state_cases (st : AllocatorState) (fin : Bool) (ptr : Nat) :
    (free st fin ptr).1 = st ∨ (free st fin ptr).1 = erase_ptr st ptr := by
  unfold free
  cases find_block st ptr with
  | none => left; rfl
  | some block =>
    cases fin with
    | true => left; rfl
    | false => right; rfl

/-- Membership in the registry after erasure implies membership before. -/
theorem mem_of_mem_erase_ptr {st : AllocatorState} {ptr : Nat}
    {pb : Nat × Block} (h : pb ∈ (erase_ptr st ptr).ptr_to_block) :
    pb ∈ st.ptr_to_block :=
  (List.mem_filter.mp h).1

/-- After erasing a pointer, looking it up fails. -/
theorem find_block_erase_ptr (st : AllocatorState) (ptr : Nat) :
    find_block (erase_ptr st ptr) ptr = none := by
  unfold find_block erase_ptr
  simp only [Option.map_eq_none', List.find?_eq_none]
  intro x hx
  have hne := (List.mem_filter.mp hx).2
  simp only [bne_iff_ne, ne_eq] at hne
  simp [hne]

/-- C5: every block that alloc ever inserts into the registry satisfies
signal_pad_offset = round_up(requested size, 16) and
block_size >= buffer_size + signal_pad_size, provided the driver reports
a positive allocation granularity; the invariants are preserved by every
registry-mutating operation, so they hold for every block in every
reachable registry. -/
theorem alloc_block_size_invariants (ops : List AllocatorOp)
    (hg : ∀ op ∈ ops, granularity_ok op) :
    ∀ pb ∈ (run_ops ops).ptr_to_block, block_size_invariant pb.2 := by
  have main : ∀ (l : List AllocatorOp) (st : AllocatorState),
      (∀ op ∈ l, granularity_ok op) →
      (∀ pb ∈ st.ptr_to_block, block_size_invariant pb.2) →
      ∀ pb ∈ (l.foldl apply_op st).ptr_to_block, block_size_invariant pb.2 := by
    intro l
    induction l with
    | nil =>
      intro st _ hst
      simpa using hst
    | cons op rest ih =>
      intro st hops hst
      simp only [List.foldl_cons]
      apply ih
      · intro o ho
        exact hops o (List.mem_cons_of_mem _ ho)
      · have hop := hops op (List.mem_cons_self _ _)
        cases op with
        | op_alloc size dev grp g h p =>
          simp only [granularity_ok] at hop
          intro pb hpb
          simp only [apply_op, alloc] at hpb
          by_cases hfind : (find_block st p).isSome
          · rw [if_pos hfind] at hpb
            exact hst pb hpb
          · rw [if_neg hfind] at hpb
            rcases List.mem_cons.mp hpb with heq | hmem
            · subst heq
              refine ⟨rfl, ?_⟩
              have h1 : size ≤ round_up size 16 := le_round_up size 16 (by norm_num)
              have h2 : round_up size 16 + signal_pad_size
                  ≤ round_up (round_up size 16 + signal_pad_size) g :=
                le_round_up _ g hop
              simpa using by omega
            · exact hst pb hmem
        | op_free fin p =>
          intro pb hpb
          simp only [apply_op] at hpb
          rcases free_state_cases st fin p with hcase | hcase <;> rw [hcase] at hpb
          · exact hst pb hpb
          · exact hst pb (mem_of_mem_erase_ptr hpb)
        | op_set_symm_mem p s =>
          intro pb hpb
          simp only [apply_op, set_symm_mem] at hpb
          rcases List.mem_map.mp hpb with ⟨pb0, hmem, heq⟩
          have h0 := hst pb0 hmem
          by_cases hp : pb0.1 = p
          · rw [if_pos hp] at heq
            subst heq
            exact h0
          · rw [if_neg hp] at heq
            subst heq
            exact h0
  exact main ops { ptr_to_block := [] } hg (by simp)

/-- Witness for the C5 invariants: running a single alloc of 4096 payload
bytes at granularity 2048 yields a registry whose only block has signal
pad offset 4096 = round_up(4096, 16) and block size 6144 >= 4096 + 2048. -/
theorem alloc_block_size_invariants_witness :
    block_size_invariant
      { handle := 100, device_idx := 0, block_size := 6144,
        buffer_size := 4096, signal_pad_offset := 4096,
        group_name := "group0", symm_mem := none } := by
  have h := alloc_block_size_invariants
    [AllocatorOp.op_alloc 4096 0 "group0" 2048 100 4096]
    (by
      intro op hop
      simp only [List.mem_singleton] at hop
      subst hop
      simp only [granularity_ok]
      norm_num)
  exact h (4096,
    { handle := 100, device_idx := 0, block_size := 6144,
      buffer_size := 4096, signal_pad_offset := 4096,
      group_name := "group0", symm_mem := none }) (by decide)

/-- C6: free on an unknown pointer or during process teardown is a no-op;
free on a block whose rendezvous never happened unmaps the block, releases
the driver handle and erases the registry entry, after which
get_alloc_size on the pointer fails as unknown; free on a block whose
ownership was transferred to a SymmetricMemory by rendezvous only erases
the registry entry and performs no driver call, leaving the mapping
live. -/
theorem free_behavior :
    (∀ (st : AllocatorState) (fin : Bool) (ptr : Nat),
      find_block st ptr = none → free st fin ptr = (st, [])) ∧
    (∀ (st : AllocatorState) (ptr : Nat), free st true ptr = (st, [])) ∧
    (∀ (st : AllocatorState) (ptr : Nat) (block : Block),
      find_block st ptr = some block → block.symm_mem = none →
      free st false ptr
        = (erase_ptr st ptr,
           [DriverEvent.unmap ptr block.block_size,
            DriverEvent.release block.handle]) ∧
      ∃ msg, get_alloc_size (free st false ptr).1 ptr = Except.error msg) ∧
    (∀ (st : AllocatorState) (ptr : Nat) (block : Block)
      (s : CUDASymmetricMemory),
      find_block st ptr = some block → block.symm_mem = some s →
      free st false ptr = (erase_ptr st ptr, []) ∧
      find_block (free st false ptr).1 ptr = none) := by
  refine ⟨?_, ?_, ?_, ?_⟩
  · intro st fin ptr hnone
    unfold free
    rw [hnone]
  · intro st ptr
    unfold free
    cases find_block st ptr <;> rfl
  · intro st ptr block hfind hsm
    have hfree : free st false ptr
        = (erase_ptr st ptr,
           [DriverEvent.unmap ptr block.block_size,
            DriverEvent.release block.handle]) := by
      unfold free
      rw [hfind]
      simp [hsm]
    refine ⟨hfree, ?_⟩
    rw [hfree]
    unfold get_alloc_size
    rw [find_block_erase_ptr]
    exact ⟨_, rfl⟩
  · intro st ptr block s hfind hsm
    have hfree : free st false ptr = (erase_ptr st ptr, []) := by
      unfold free
      rw [hfind]
      simp [hsm]
    refine ⟨hfree, ?_⟩
    rw [hfree]
    exact find_block_erase_ptr st ptr

/-- Witness for the C6 theorem: freeing the sample never-rendezvoused
block unmaps it, releases handle 100 and empties the registry. -/
theorem free_behavior_witness :
    free demo_st false 4096
      = (erase_ptr demo_st 4096,
         [DriverEvent.unmap 4096 6144, DriverEvent.release 100]) :=
  (free_behavior.2.2.1 demo_st 4096 demo_block rfl rfl).1

/-- C7: immediately after alloc registers a fresh pointer, get_alloc_size
on that pointer returns exactly the requested payload size (not the
rounded-up block size), and get_alloc_size on any unregistered pointer
fails. -/
theorem get_alloc_size_returns_requested (st : AllocatorState)
    (size device_idx : Nat) (group_name : String)
    (granularity handle ptr : Nat)
    (hfresh : find_block st ptr = none) :
    get_alloc_size (alloc st size device_idx group_name granularity handle ptr)
      ptr = Except.ok size ∧
    ∃ msg, get_alloc_size st ptr = Except.error msg := by
  constructor
  · have hnotsome : ¬ (find_block st ptr).isSome := by
      rw [hfresh]
      simp
    unfold alloc
    rw [if_neg hnotsome]
    unfold get_alloc_size find_block
    simp [List.find?]
  · unfold get_alloc_size
    rw [hfresh]
    exact ⟨_, rfl⟩

/-- Witness for the C7 theorem: allocating 4000 payload bytes at pointer
8192 in the empty registry makes get_alloc_size return 4000. -/
theorem get_alloc_size_returns_requested_witness :
    get_alloc_size
      (alloc { ptr_to_block := [] } 4000 0 "group0" 2048 100 8192) 8192
      = Except.ok 4000 :=
  (get_alloc_size_returns_requested { ptr_to_block := [] } 4000 0 "group0"
    2048 100 8192 rfl).1

/-- Looking up a pointer after setting its SymmetricMemory reference
yields the same block with the reference set. -/
theorem find_block_set_symm_mem (st : AllocatorState) (ptr : Nat)
    (s : CUDASymmetricMemory) :
    find_block (set_symm_mem st ptr s) ptr
      = (find_block st ptr).map (fun b => { b with symm_mem := some s }) := by
  unfold find_block set_symm_mem
  generalize st.ptr_to_block = l
  induction l with
  | nil => rfl
  | cons hd tl ih =>
    by_cases hhd : hd.1 = ptr
    · simp [List.find?_cons, hhd]
    · simp only [List.map_cons, List.find?_cons, if_neg hhd]
      have : (hd.1 == ptr) = false := by simp [hhd]
      rw [this]
      simpa using ih

/-- A rendezvous call on a block that already carries a SymmetricMemory
returns the cached object, leaves the state unchanged and performs no
effect. -/
theorem rendezvous_cached (env : RendezvousEnv) (st : AllocatorState)
    (ptr : Nat) (block : Block) (s : CUDASymmetricMemory)
    (hfind : find_block st ptr = some block)
    (hsm : block.symm_mem = some s) :
    rendezvous env st ptr = (Except.ok (s, st), []) := by
  unfold rendezvous
  rw [hfind]
  dsimp only
  rw [hsm]

/-- C3: rendezvous is idempotent.  Whenever a rendezvous call succeeds
with object s and state st2, every later rendezvous call on the same
pointer -- under any environment -- returns exactly (s, st2) again with
an empty effect trace, so the exchange protocol is not re-run; and
rendezvous on a pointer absent from the registry fails. -/
theorem rendezvous_idempotent :
    (∀ (env env2 : RendezvousEnv) (st st2 : AllocatorState) (ptr : Nat)
       (s : CUDASymmetricMemory),
      (rendezvous env st ptr).1 = Except.ok (s, st2) →
      rendezvous env2 st2 ptr = (Except.ok (s, st2), [])) ∧
    (∀ (env : RendezvousEnv) (st : AllocatorState) (ptr : Nat),
      find_block st ptr = none →
      rendezvous env st ptr = (Except.error rendezvous_unknown_ptr_msg, [])) := by
  constructor
  · intro env env2 st st2 ptr s h
    unfold rendezvous at h
    cases hfind : find_block st ptr with
    | none =>
      rw [hfind] at h
      simp at h
    | some block =>
      rw [hfind] at h
      dsimp only at h
      cases hsm : block.symm_mem with
      | some s0 =>
        rw [hsm] at h
        dsimp only at h
        simp at h
        obtain ⟨hs, hst⟩ := h
        subst hs
        subst hst
        exact rendezvous_cached env2 st ptr block s0 hfind hsm
      | none =>
        rw [hsm] at h
        dsimp only at h
        by_cases hv : rendezvous_validation env block
        · rw [if_pos hv] at h
          simp at h
          obtain ⟨hs, hst⟩ := h
          subst hs
          subst hst
          refine rendezvous_cached env2 _ ptr
            { block with symm_mem := some (rendezvous_symm_mem env block ptr) }
            (rendezvous_symm_mem env block ptr) ?_ rfl
          rw [find_block_set_symm_mem, hfind]
          rfl
        · rw [if_neg hv] at h
          simp at h
  · intro env st ptr hnone
    unfold rendezvous
    rw [hnone]

/-- Witness for the C3 theorem: after the sample rendezvous succeeds and
caches demo_symm on the block, a second call returns the identical cached
object with no effects. -/
theorem rendezvous_idempotent_witness :
    rendezvous demo_env demo_st2 4096 = (Except.ok (demo_symm, demo_st2), []) :=
  rendezvous_idempotent.1 demo_env demo_env demo_st demo_st2 4096 demo_symm rfl

/-- C4: validation of the gathered requests accepts exactly when the
request count equals the world size, the device indices are pairwise
distinct, and block size, buffer size and signal-pad offset agree with
request 0 on every rank; and when validation rejects, rendezvous fails
with a trace containing only the handle export and the all-gather round,
so no remote handle import or mapping has happened. -/
theorem validate_rendezvous_requests_correct :
    (∀ (reqs : List RendezvousRequest) (world_size : Nat),
      validate_rendezvous_requests reqs world_size = true ↔
        (reqs.length = world_size ∧
         (reqs.map (fun q => q.device_idx)).Nodup ∧
         ∀ r, r < world_size →
           (reqs.getD r default).block_size
             = (reqs.getD 0 default).block_size ∧
           (reqs.getD r default).buffer_size
             = (reqs.getD 0 default).buffer_size ∧
           (reqs.getD r default).signal_pad_offset
             = (reqs.getD 0 default).signal_pad_offset)) ∧
    (∀ (env : RendezvousEnv) (st : AllocatorState) (ptr : Nat) (block : Block),
      find_block st ptr = some block → block.symm_mem = none →
      rendezvous_validation env block = false →
      rendezvous env st ptr
        = (Except.error rendezvous_validation_msg,
           [RendezvousEvent.export_handle block.handle,
            RendezvousEvent.all_gather_round])) := by
  constructor
  · intro reqs world_size
    unfold validate_rendezvous_requests
    simp only [Bool.and_eq_true, beq_iff_eq, decide_eq_true_eq, List.all_eq_true,
      List.mem_range']
    constructor
    · rintro ⟨⟨hlen, hdedup⟩, hsizes⟩
      have hmaplen : (reqs.map (fun q => q.device_idx)).length = world_size := by
        simpa using hlen
      have hsub : (reqs.map (fun q => q.device_idx)).dedup.Sublist
          (reqs.map (fun q => q.device_idx)) := List.dedup_sublist _
      have hle : (reqs.map (fun q => q.device_idx)).dedup.length
          ≤ (reqs.map (fun q => q.device_idx)).length := hsub.length_le
      have heq : (reqs.map (fun q => q.device_idx)).dedup
          = reqs.map (fun q => q.device_idx) :=
        hsub.eq_of_length (by omega)
      refine ⟨hlen, List.dedup_eq_self.mp heq, ?_⟩
      intro r hr
      rcases Nat.eq_zero_or_pos r with hr0 | hr1
      · subst hr0
        exact ⟨rfl, rfl, rfl⟩
      · have := hsizes r ⟨r - 1, by omega, by omega⟩
        simp only [Bool.and_eq_true, beq_iff_eq] at this
        exact ⟨this.1.1, this.1.2, this.2⟩
    · rintro ⟨hlen, hnodup, hsizes⟩
      have heq : (reqs.map (fun q => q.device_idx)).dedup
          = reqs.map (fun q => q.device_idx) := List.dedup_eq_self.mpr hnodup
      refine ⟨⟨hlen, ?_⟩, ?_⟩
      · rw [heq]
        rw [List.length_map, hlen]
      · intro r hr
        obtain ⟨i, hi, hri⟩ := hr
        have := hsizes r (by omega)
        exact ⟨⟨this.1, this.2.1⟩, this.2.2⟩
  · intro env st ptr block hfind hsm hv
    unfold rendezvous
    rw [hfind]
    dsimp only
    rw [hsm]
    dsimp only
    rw [if_neg (by simp [hv])]

/-- Witness for the C4 theorem: with the sample peer reporting buffer
size 8192 against the local 4096, rendezvous fails right after the
all-gather, with no import or mapping event. -/
theorem validate_rendezvous_requests_correct_witness :
    rendezvous demo_bad_env demo_st 4096
      = (Except.error rendezvous_validation_msg,
         [RendezvousEvent.export_handle 100,
          RendezvousEvent.all_gather_round]) :=
  validate_rendezvous_requests_correct.2 demo_bad_env demo_st 4096 demo_block
    rfl rfl rfl

/-- Witness for the amended C2 theorem at shape [2], element size 4,
storage offset 1 on the sample object: (2 + 1) * 4 = 12 <= 4096, so the
call returns the view over the rank-0 pointer 4096. -/
theorem get_buffer_size_check_witness :
    get_buffer demo_mem 0 [2] 4 1
      = Except.ok { base := 4096, sizes := [2], element_size := 4,
                    storage_offset := 1 } := by
  have h := (get_buffer_size_check demo_mem 0 [2] 4 1 (by decide) (by decide)
    (by decide)).1 (by decide)
  simpa [demo_mem] using h

/-- Every operation of an all-gather round addresses a key carrying the
sequence value of that round. -/
theorem key_seq_of_mem_trace (rank world_size seq : Nat) (op : StoreOp)
    (hop : op ∈ (store_all_gather_trace rank world_size seq).1) :
    op.key.seq = seq := by
  unfold store_all_gather_trace at hop
  rcases List.mem_cons.mp hop with h | h
  · subst h
    rfl
  · rcases List.mem_flatten.mp h with ⟨l, hl, hopl⟩
    rcases List.mem_map.mp hl with ⟨r, hr, hfl⟩
    subst hfl
    by_cases hrr : r = rank
    · rw [if_pos hrr] at hopl
      exact absurd hopl (List.not_mem_nil op)
    · rw [if_neg hrr] at hopl
      rcases List.mem_cons.mp hopl with h1 | h1
      · subst h1
        rfl
      · rcases List.mem_cons.mp h1 with h2 | h2
        · subst h2
          rfl
        · exact absurd h2 (List.not_mem_nil op)

/-- The wait operations of the loop body, in loop order. -/
theorem wait_keys_of_round (rank seq : Nat) (n : Nat) :
    (((List.range n).map fun r =>
      if r = rank then []
      else [StoreOp.wait_key { seq := seq, rank := r },
            StoreOp.get_key { seq := seq, rank := r }]).flatten.filterMap
        StoreOp.wait_key?)
      = ((List.range n).filter (fun r => decide (r ≠ rank))).map
          (fun r => { seq := seq, rank := r }) := by
  induction n with
  | zero => rfl
  | succ n ih =>
    rw [List.range_succ, List.map_append, List.flatten_append,
      List.filterMap_append, List.filter_append, List.map_append, ih]
    congr 1
    by_cases h : n = rank <;> simp [h, StoreOp.wait_key?]

/-- The get operations of the loop body, in loop order. -/
theorem get_keys_of_round (rank seq : Nat) (n : Nat) :
    (((List.range n).map fun r =>
      if r = rank then []
      else [StoreOp.wait_key { seq := seq, rank := r },
            StoreOp.get_key { seq := seq, rank := r }]).flatten.filterMap
        StoreOp.get_key?)
      = ((List.range n).filter (fun r => decide (r ≠ rank))).map
          (fun r => { seq := seq, rank := r }) := by
  induction n with
  | zero => rfl
  | succ n ih =>
    rw [List.range_succ, List.map_append, List.flatten_append,
      List.filterMap_append, List.filter_append, List.map_append, ih]
    congr 1
    by_cases h : n = rank <;> simp [h, StoreOp.get_key?]

/-- The loop body performs no set operation. -/
theorem no_set_keys_in_round (rank seq : Nat) (n : Nat) :
    (((List.range n).map fun r =>
      if r = rank then []
      else [StoreOp.wait_key { seq := seq, rank := r },
            StoreOp.get_key { seq := seq, rank := r }]).flatten.filterMap
        StoreOp.set_key?)
      = [] := by
  induction n with
  | zero => rfl
  | succ n ih =>
    rw [List.range_succ, List.map_append, List.flatten_append,
      List.filterMap_append, ih]
    by_cases h : n = rank <;> simp [h, StoreOp.set_key?]

/-- C9: in every all-gather round the sequence counter is incremented
exactly once; the first store operation is the set of the key for the
current sequence value and the calling rank, and it is the only set of
the round; the waits and the gets address exactly the keys of the other
ranks in increasing rank order; every key of the round carries the
current sequence value, so two rounds with different counter values never
address a common key. -/
theorem store_all_gather_key_discipline (rank world_size seq : Nat) :
    (store_all_gather_trace rank world_size seq).2 = seq + 1 ∧
    (store_all_gather_trace rank world_size seq).1.head?
      = some (StoreOp.set_key { seq := seq, rank := rank }) ∧
    ((store_all_gather_trace rank world_size seq).1.filterMap
        StoreOp.set_key?) = [{ seq := seq, rank := rank }] ∧
    ((store_all_gather_trace rank world_size seq).1.filterMap
        StoreOp.wait_key?)
      = ((List.range world_size).filter (fun r => decide (r ≠ rank))).map
          (fun r => { seq := seq, rank := r }) ∧
    ((store_all_gather_trace rank world_size seq).1.filterMap
        StoreOp.get_key?)
      = ((List.range world_size).filter (fun r => decide (r ≠ rank))).map
          (fun r => { seq := seq, rank := r }) ∧
    (∀ (seq2 rank2 world_size2 : Nat), seq ≠ seq2 →
      ∀ op ∈ (store_all_gather_trace rank world_size seq).1,
      ∀ op2 ∈ (store_all_gather_trace rank2 world_size2 seq2).1,
        op.key ≠ op2.key) := by
  refine ⟨rfl, rfl, ?_, ?_, ?_, ?_⟩
  · unfold store_all_gather_trace
    rw [List.filterMap_cons]
    simp only [StoreOp.set_key?]
    rw [no_set_keys_in_round]
  · unfold store_all_gather_trace
    rw [List.filterMap_cons]
    simp only [StoreOp.wait_key?]
    rw [wait_keys_of_round]
  · unfold store_all_gather_trace
    rw [List.filterMap_cons]
    simp only [StoreOp.get_key?]
    rw [get_keys_of_round]
  · intro seq2 rank2 world_size2 hne op hop op2 hop2 hkey
    have h1 := key_seq_of_mem_trace rank world_size seq op hop
    have h2 := key_seq_of_mem_trace rank2 world_size2 seq2 op2 hop2
    rw [hkey] at h1
    exact hne (h1 ▸ h2 ▸ rfl)

/-- Witness for the C9 theorem: the key set in round 5 differs from the
key set in round 6 of the same process. -/
theorem store_all_gather_key_discipline_witness :
    StoreOp.key (StoreOp.set_key { seq := 5, rank := 0 })
      ≠ StoreOp.key (StoreOp.set_key { seq := 6, rank := 0 }) :=
  (store_all_gather_key_discipline 0 2 5).2.2.2.2.2 6 0 2 (by decide)
    (StoreOp.set_key { seq := 5, rank := 0 }) (by decide)
    (StoreOp.set_key { seq := 6, rank := 0 }) (by decide)

/-- C10: the host entry points put_signal, wait_signal and barrier
validate only the channel argument: for every dst_rank and src_rank,
including negative values and values at or above the world size, the
launch is queued with the rank argument passed through unchecked (it
becomes the index into the device signal-pad pointer table, as in
put_signal_kernel_addr and wait_signal_kernel_addr), while a channel
rejected by check_channel makes all three entry points fail. -/
theorem host_entry_points_check_only_channel (m : CUDASymmetricMemory)
    (dst_rank src_rank channel bad_channel : Int)
    (hch : check_channel channel m.world_size = true)
    (hbad : check_channel bad_channel m.world_size = false) :
    put_signal m dst_rank channel
      = Except.ok { kind := KernelKind.put_signal_kernel,
                    peer := some dst_rank, channel := channel,
                    rank := m.rank, world_size := m.world_size } ∧
    wait_signal m src_rank channel
      = Except.ok { kind := KernelKind.wait_signal_kernel,
                    peer := some src_rank, channel := channel,
                    rank := m.rank, world_size := m.world_size } ∧
    barrier m channel
      = Except.ok { kind := KernelKind.barrier_kernel, peer := none,
                    channel := channel, rank := m.rank,
                    world_size := m.world_size } ∧
    put_signal m dst_rank bad_channel = Except.error channel_range_msg ∧
    wait_signal m src_rank bad_channel = Except.error channel_range_msg ∧
    barrier m bad_channel = Except.error channel_range_msg := by
  unfold put_signal wait_signal barrier
  rw [hch, hbad]
  exact ⟨rfl, rfl, rfl, rfl, rfl, rfl⟩

/-- Witness for the C10 theorem: on the sample object the negative
destination rank -5 is accepted by put_signal on channel 0, while
channel -1 is rejected. -/
theorem host_entry_points_check_only_channel_witness :
    put_signal demo_mem (-5) 0
      = Except.ok { kind := KernelKind.put_signal_kernel,
                    peer := some (-5), channel := 0, rank := 0,
                    world_size := 2 } :=
  (host_entry_points_check_only_channel demo_mem (-5) 7 0 (-1)
    (by decide) (by decide)).1

end SymmetricMemoryModel
